import Mathlib

/-!
Verification of the PayTap WebSocket relay server (`server.js`).

The development shallowly embeds the connection registry, the message
router, the broadcast helpers, the liveness eviction sweep, the close
handler and the shutdown path of the server.  Connections are identified
by natural numbers; the `ws.readyState` field is carried explicitly
(`1` = OPEN); wall-clock time is a natural-number parameter `now`.
Outbound transport effects are reified as lists of `Action` values so
that theorems can speak about exactly which events reach which targets.
-/

namespace PayTap

/-- Connection roles stored in the registry (the `type` field of the
client metadata object: unknown, esp32 or web). -/
inductive Role
  | unknown
  | esp32
  | web
deriving DecidableEq, Repr

/-- Per-connection metadata, mirroring the object the connection
handler stores in the clients map. -/
structure ClientData where
  ip : String
  connected_at : Nat
  type : Role
  device_id : Option String
  lastPing : Nat
deriving DecidableEq, Repr

/-- A registry entry: the connection identifier, its transport
`readyState` (`1` = OPEN) and its metadata record. -/
structure ClientEntry where
  conn : Nat
  readyState : Nat
  data : ClientData
deriving DecidableEq, Repr

/-- Structured event messages: JSON objects with a required `type`
field and the optional fields used by the server.  Absent fields are
`none`. -/
structure Event where
  type : String
  message : Option String := none
  server_time : Option Nat := none
  environment : Option String := none
  device_id : Option String := none
  status : Option String := none
  rfid_uid : Option String := none
  network : Option String := none
  timestamp : Option Nat := none
  amount : Option Nat := none
  transaction_id : Option String := none
  reason : Option String := none
  error : Option String := none
deriving DecidableEq, Repr

/-- Observable per-connection transport effects of the server. -/
inductive Action
  | send (target : Nat) (msg : Event)
  | close (target : Nat) (code : Nat) (reason : String)
  | terminate (target : Nat)
deriving DecidableEq, Repr

/-- One iteration of the `wss.clients.forEach` body shared by the three
broadcast helpers: if the client satisfies the guard, send the message
and increment the count. -/
def bcastStep (message : Event) (p : ClientEntry → Prop) [DecidablePred p]
    (acc : List Action × Nat) (client : ClientEntry) : List Action × Nat :=
  if p client then (acc.1 ++ [Action.send client.conn message], acc.2 + 1) else acc

/-- `broadcastToAll(message, sender)`: send to every client other than
the sender whose `readyState` is OPEN, counting the sends. -/
def broadcastToAll (st : List ClientEntry) (message : Event) (sender : Option Nat) :
    List Action × Nat :=
  st.foldl
    (bcastStep message fun client => some client.conn ≠ sender ∧ client.readyState = 1)
    ([], 0)

/-- `broadcastToESP32(message)`: send to every OPEN client whose
registered type is esp32. -/
def broadcastToESP32 (st : List ClientEntry) (message : Event) : List Action × Nat :=
  st.foldl
    (bcastStep message fun client => client.data.type = Role.esp32 ∧ client.readyState = 1)
    ([], 0)

/-- `broadcastToWeb(message)`: send to every OPEN client whose
registered type is web. -/
def broadcastToWeb (st : List ClientEntry) (message : Event) : List Action × Nat :=
  st.foldl
    (bcastStep message fun client => client.data.type = Role.web ∧ client.readyState = 1)
    ([], 0)


/-- `NODE_ENV` with its default value. -/
def NODE_ENV : String := "development"

/-- The welcome event sent right after a connection is accepted. -/
def welcomeEvent (now : Nat) : Event :=
  { type := "welcome",
    message := some "Connected to PayTap WebSocket Server",
    server_time := some now,
    environment := some NODE_ENV }

/-- The connection handler: store fresh metadata (type unknown, no
device id, `lastPing` = now) for the new connection and send the
welcome event. -/
def handleConnection (st : List ClientEntry) (conn : Nat) (ip : String) (now : Nat) :
    List ClientEntry × List Action :=
  (st ++ [{ conn := conn, readyState := 1,
            data := { ip := ip, connected_at := now, type := Role.unknown,
                      device_id := none, lastPing := now } }],
   [Action.send conn (welcomeEvent now)])

/-- JavaScript truthiness of an optional string field: `undefined`,
`null` and `""` are falsy. -/
def truthy : Option String → Bool
  | some s => !(s == "")
  | none => false

/-- The unconditional metadata refresh performed on every successfully
parsed message: `clientData.lastPing = Date.now()`, and
`clientData.device_id = message.device_id` when `message.device_id` is
truthy. -/
def updateMeta (message : Event) (now : Nat) (d : ClientData) : ClientData :=
  let d1 : ClientData := { d with lastPing := now }
  if truthy message.device_id then { d1 with device_id := message.device_id } else d1

/-- Apply a metadata mutation to the record of connection `ws`, leaving
every other record unchanged (models in-place mutation of the object
returned by `clients.get(ws)`; a no-op when `ws` is unregistered). -/
def applyAt (st : List ClientEntry) (ws : Nat) (f : ClientData → ClientData) :
    List ClientEntry :=
  st.map fun c => if c.conn = ws then { c with data := f c.data } else c

/-- `clientData.type = r`. -/
def setRole (r : Role) (d : ClientData) : ClientData := { d with type := r }

/-- The total effect of one routed message on the sender's metadata:
the unconditional refresh, composed with the role assignment that the
two announce message types perform. -/
def routeMeta (m : Event) (now : Nat) (d : ClientData) : ClientData :=
  if m.type = "esp32_connected" then setRole Role.esp32 (updateMeta m now d)
  else if m.type = "web_connected" then setRole Role.web (updateMeta m now d)
  else updateMeta m now d

/-- Result of running the message handler: the updated registry, the
synchronous transport actions, and the payment requests deferred to the
`setTimeout` callback. -/
structure HandleResult where
  state : List ClientEntry
  actions : List Action
  deferred : List Event
deriving DecidableEq, Repr

/-- The `payment_success` event built in the `setTimeout` callback. -/
def paymentSuccessEvent (message : Event) (now : Nat) : Event :=
  { type := "payment_success", rfid_uid := message.rfid_uid, amount := message.amount,
    transaction_id := some (String.append "TXN" (toString now)), timestamp := some now }

/-- The `payment_failed` event built in the `setTimeout` callback. -/
def paymentFailedEvent (message : Event) : Event :=
  { type := "payment_failed", rfid_uid := message.rfid_uid,
    reason := some "Insufficient balance" }

/-- Body of the deferred payment callback with the `success` flag left
explicit: on success the result event goes to `broadcastToESP32` and
`broadcastToWeb`; on failure a `payment_failed` event goes to
`broadcastToESP32` only. -/
def paymentOutcomeActions (success : Bool) (message : Event) (st : List ClientEntry)
    (now : Nat) : List Action :=
  if success then
    (broadcastToESP32 st (paymentSuccessEvent message now)).1
      ++ (broadcastToWeb st (paymentSuccessEvent message now)).1
  else
    (broadcastToESP32 st { paymentFailedEvent message with timestamp := some now }).1

/-- The deferred payment callback as the code runs it:
`const success = true` is a constant, so the callback always takes the
success branch. -/
def paymentCallback (message : Event) (st : List ClientEntry) (now : Nat) : List Action :=
  paymentOutcomeActions true message st now

/-- The per-connection message handler.  `raw` is the result of
`JSON.parse`: `Except.error` models a parse failure caught by the
`catch` block, `Except.ok` a successfully parsed event dispatched by the
`switch`. -/
def handleMessage (st : List ClientEntry) (sender : Nat) (raw : Except String Event)
    (now : Nat) : HandleResult :=
  match raw with
  | Except.error err =>
      { state := st,
        actions := [Action.send sender
          { type := "error", message := some "Invalid message format", error := some err }],
        deferred := [] }
  | Except.ok message =>
      let st1 := applyAt st sender (updateMeta message now)
      if message.type = "esp32_connected" then
        let st2 := applyAt st1 sender (setRole Role.esp32)
        { state := st2,
          actions := Action.send sender
              { type := "connection_confirmed",
                message := some "ESP32 connected successfully",
                server_time := some now }
            :: (broadcastToWeb st2
                { type := "esp32_status", status := some "connected",
                  device_id := message.device_id }).1,
          deferred := [] }
      else if message.type = "web_connected" then
        let st2 := applyAt st1 sender (setRole Role.web)
        { state := st2,
          actions := [Action.send sender
            { type := "connection_confirmed",
              message := some "Web client connected successfully" }],
          deferred := [] }
      else if message.type = "rfid_scan" then
        { state := st1,
          actions := (broadcastToWeb st1
              { type := "rfid_scan", rfid_uid := message.rfid_uid,
                device_id := message.device_id, network := message.network,
                timestamp := some now }).1
            ++ [Action.send sender
                { type := "scan_received",
                  message := some "Card scan received by server",
                  rfid_uid := message.rfid_uid }],
          deferred := [] }
      else if message.type = "payment_request" then
        { state := st1, actions := [], deferred := [message] }
      else if message.type = "ping" then
        { state := st1,
          actions := [Action.send sender { type := "pong", timestamp := some now }],
          deferred := [] }
      else
        { state := st1,
          actions := (broadcastToAll st1 message (some sender)).1,
          deferred := [] }

/-- The close handler: look up the metadata of the departing client,
notify
web clients when an ESP32 device disconnects, then delete its record. -/
def handleClose (st : List ClientEntry) (ws : Nat) : List ClientEntry × List Action :=
  let clientData := (st.find? fun c => c.conn == ws).map ClientEntry.data
  let acts :=
    match clientData with
    | some d =>
        if d.type = Role.esp32 then
          (broadcastToWeb st
            { type := "esp32_status", status := some "disconnected",
              device_id := d.device_id }).1
        else []
    | none => []
  (st.filter fun c => !(c.conn == ws), acts)

/-- The staleness threshold of the eviction sweep (milliseconds). -/
def STALE_MS : Nat := 120000

/-- The eviction `setInterval`: terminate every connection whose
`lastPing` is more than `STALE_MS` in the past. -/
def evictionSweep (st : List ClientEntry) (now : Nat) : List Action :=
  (st.filter fun c => decide (STALE_MS < now - c.data.lastPing)).map
    (fun c => Action.terminate c.conn)

/-- Process-level effects of the shutdown path. -/
inductive SysAction
  | closeFrame (target : Nat) (code : Nat) (reason : String)
  | drainExit (code : Nat)
  | forcedExitTimer (delay : Nat) (code : Nat)
deriving DecidableEq, Repr

/-- The `shutdown` function: send a code-1000 close frame to every
client, register `process.exit(0)` as the drain callback of
`server.close`, and arm the 10-second forced `process.exit(1)` timer. -/
def shutdown (st : List ClientEntry) : List SysAction :=
  (st.map fun c => SysAction.closeFrame c.conn 1000 "Server shutting down")
    ++ [SysAction.drainExit 0, SysAction.forcedExitTimer 10000 1]

/-- Exit code of the shutdown path given when (if ever) the listener
finishes draining: exit 0 on drain before the 10000 ms timer, forced
exit 1 otherwise. -/
def shutdownExit (drainDone : Option Nat) : Nat :=
  match drainDone with
  | some t => if t < 10000 then 0 else 1
  | none => 1

/-- The process-level events the server registers handlers for. -/
inductive ProcEvent
  | sigterm
  | sigint
  | uncaughtException
  | unhandledRejection
deriving DecidableEq, Repr

/-- The registered process handlers: SIGTERM, SIGINT and
`uncaughtException` invoke `shutdown`; the `unhandledRejection` handler
only logs and performs no shutdown action. -/
def processHandler (e : ProcEvent) (st : List ClientEntry) : List SysAction :=
  match e with
  | ProcEvent.sigterm => shutdown st
  | ProcEvent.sigint => shutdown st
  | ProcEvent.uncaughtException => shutdown st
  | ProcEvent.unhandledRejection => []

/-- Transport delivery under an arbitrary per-target failure pattern:
the sends whose delivery succeeds.  The server never observes a
delivery failure (ws reports send errors asynchronously), so the
pattern appears nowhere in the server's own control flow. -/
def deliveries (deliverOk : Nat → Bool) (acts : List Action) : List Action :=
  acts.filter fun a =>
    match a with
    | Action.send t _ => deliverOk t
    | _ => true

/-- The sends of an action list addressed to a given target. -/
def sendsTo (t : Nat) (acts : List Action) : List Action :=
  acts.filter fun a =>
    match a with
    | Action.send u _ => u == t
    | _ => false

/-- A sample registry entry with role `scan_device` (`'esp32'`). -/
def sampleEsp : ClientEntry :=
  { conn := 1, readyState := 1,
    data := { ip := "10.0.0.1", connected_at := 0, type := Role.esp32,
              device_id := some "D1", lastPing := 0 } }

/-- A sample registry entry with role `control_client` (`'web'`). -/
def sampleWeb : ClientEntry :=
  { conn := 2, readyState := 1,
    data := { ip := "10.0.0.2", connected_at := 0, type := Role.web,
              device_id := none, lastPing := 0 } }

/-- A sample freshly registered entry with role `'unknown'`. -/
def sampleUnknown : ClientEntry :=
  { conn := 0, readyState := 1,
    data := { ip := "10.0.0.3", connected_at := 0, type := Role.unknown,
              device_id := none, lastPing := 0 } }

/-- A sample entry that already carries a device identifier. -/
def sampleOldDevice : ClientEntry :=
  { conn := 0, readyState := 1,
    data := { ip := "10.0.0.4", connected_at := 0, type := Role.esp32,
              device_id := some "OLD", lastPing := 0 } }

/-- A sample `payment_request` event. -/
def samplePayment : Event :=
  { type := "payment_request", rfid_uid := some "CARD1", amount := some 100 }

/-- A sample scan-device entry whose liveness timestamp is stale. -/
def staleEsp : ClientEntry :=
  { conn := 3, readyState := 1,
    data := { ip := "10.0.0.5", connected_at := 0, type := Role.esp32,
              device_id := some "D3", lastPing := 0 } }

/-- The broadcast fold, with its accumulator generalised, equals a
filter-and-map over the client list together with the count of matching
clients. -/
theorem foldl_bcastStep (message : Event) (p : ClientEntry → Prop) [DecidablePred p]
    (st : List ClientEntry) :
    ∀ acc : List Action × Nat,
      st.foldl (bcastStep message p) acc
        = (acc.1 ++ (st.filter fun c => decide (p c)).map
              (fun c => Action.send c.conn message),
           acc.2 + (st.filter fun c => decide (p c)).length) := by
  induction st with
  | nil => intro acc; simp
  | cons a l ih =>
      intro acc
      by_cases h : p a
      · simp [bcastStep, h, ih, List.filter_cons, Nat.add_comm, Nat.add_assoc,
          Nat.add_left_comm]
      · simp [bcastStep, h, ih, List.filter_cons]

/-- `broadcastToAll` in closed form. -/
theorem broadcastToAll_eq (st : List ClientEntry) (message : Event) (sender : Option Nat) :
    broadcastToAll st message sender
      = ((st.filter fun c => decide (some c.conn ≠ sender ∧ c.readyState = 1)).map
            (fun c => Action.send c.conn message),
         (st.filter fun c => decide (some c.conn ≠ sender ∧ c.readyState = 1)).length) := by
  simpa using foldl_bcastStep message
    (fun client => some client.conn ≠ sender ∧ client.readyState = 1) st ([], 0)

/-- `broadcastToESP32` in closed form. -/
theorem broadcastToESP32_eq (st : List ClientEntry) (message : Event) :
    broadcastToESP32 st message
      = ((st.filter fun c => decide (c.data.type = Role.esp32 ∧ c.readyState = 1)).map
            (fun c => Action.send c.conn message),
         (st.filter fun c => decide (c.data.type = Role.esp32 ∧ c.readyState = 1)).length) := by
  simpa using foldl_bcastStep message
    (fun client => client.data.type = Role.esp32 ∧ client.readyState = 1) st ([], 0)

/-- `broadcastToWeb` in closed form. -/
theorem broadcastToWeb_eq (st : List ClientEntry) (message : Event) :
    broadcastToWeb st message
      = ((st.filter fun c => decide (c.data.type = Role.web ∧ c.readyState = 1)).map
            (fun c => Action.send c.conn message),
         (st.filter fun c => decide (c.data.type = Role.web ∧ c.readyState = 1)).length) := by
  simpa using foldl_bcastStep message
    (fun client => client.data.type = Role.web ∧ client.readyState = 1) st ([], 0)

/-- Mutating one record's metadata does not change the sequence of
connection identifiers. -/
theorem applyAt_map_conn (st : List ClientEntry) (ws : Nat) (f : ClientData → ClientData) :
    (applyAt st ws f).map ClientEntry.conn = st.map ClientEntry.conn := by
  simp only [applyAt, List.map_map]
  apply List.map_congr_left
  intro c _
  by_cases h : c.conn = ws <;> simp [h]

/-- A record of a connection other than the mutated one is untouched by
`applyAt`. -/
theorem mem_applyAt_of_ne (st : List ClientEntry) (ws : Nat) (f : ClientData → ClientData)
    (c : ClientEntry) (hc : c ∈ st) (hne : c.conn ≠ ws) : c ∈ applyAt st ws f := by
  have : (if c.conn = ws then { c with data := f c.data } else c) ∈ applyAt st ws f :=
    List.mem_map_of_mem _ hc
  simpa [hne] using this

/-- Membership in `applyAt` in terms of the original registry. -/
theorem mem_applyAt (st : List ClientEntry) (ws : Nat) (f : ClientData → ClientData)
    (c' : ClientEntry) :
    c' ∈ applyAt st ws f
      ↔ ∃ c ∈ st, c' = if c.conn = ws then { c with data := f c.data } else c := by
  simp only [applyAt, List.mem_map]
  constructor
  · rintro ⟨c, hc, rfl⟩; exact ⟨c, hc, rfl⟩
  · rintro ⟨c, hc, rfl⟩; exact ⟨c, hc, rfl⟩

/-- A filter that only looks at the connection id and the ready state
has the same length before and after `applyAt`. -/
theorem length_filter_applyAt (st : List ClientEntry) (ws : Nat)
    (f : ClientData → ClientData) (p : ClientEntry → Bool)
    (hp : ∀ conn rs d d', p ⟨conn, rs, d⟩ = p ⟨conn, rs, d'⟩) :
    ((applyAt st ws f).filter p).length = (st.filter p).length := by
  simp only [applyAt, List.filter_map, List.length_map]
  congr 1
  apply List.filter_congr
  intro c _
  by_cases h : c.conn = ws
  · simp only [Function.comp_apply, if_pos h]
    exact hp c.conn c.readyState (f c.data) c.data
  · simp [h]

/-- In a registry with pairwise-distinct connection ids, the records
whose id equals that of a member `e` and satisfy `q` are exactly `e`
itself when `q e` holds, and nothing otherwise. -/
theorem count_conn_filter (st : List ClientEntry) (e : ClientEntry) (q : ClientEntry → Bool)
    (hnodup : (st.map ClientEntry.conn).Nodup) (he : e ∈ st) :
    (st.filter fun c => c.conn == e.conn && q c).length = if q e then 1 else 0 := by
  induction st with
  | nil => cases he
  | cons a l ih =>
      simp only [List.map_cons, List.nodup_cons, List.mem_map] at hnodup
      rcases List.mem_cons.mp he with rfl | hel
      · have htail : (l.filter fun c => c.conn == e.conn && q c) = [] := by
          apply List.filter_eq_nil_iff.mpr
          intro c hc
          have hne : c.conn ≠ e.conn := by
            intro hcontra
            exact hnodup.1 ⟨c, hc, hcontra⟩
          simp [hne]
        by_cases hq : q e
        · simp [List.filter_cons, hq, htail]
        · simp [List.filter_cons, hq, htail]
      · have hane : a.conn ≠ e.conn := by
          intro hcontra
          exact hnodup.1 ⟨e, hel, hcontra.symm⟩
        have hcond : (a.conn == e.conn && q a) = false := by simp [hane]
        rw [List.filter_cons, if_neg (by simp [hcond])]
        exact ih hnodup.2 hel

/-- In a registry with pairwise-distinct connection ids, looking a
member up by its connection id finds exactly that member. -/
theorem find?_conn (st : List ClientEntry) (e : ClientEntry)
    (hnodup : (st.map ClientEntry.conn).Nodup) (he : e ∈ st) :
    (st.find? fun c => c.conn == e.conn) = some e := by
  induction st with
  | nil => cases he
  | cons a l ih =>
      simp only [List.map_cons, List.nodup_cons, List.mem_map] at hnodup
      rcases List.mem_cons.mp he with rfl | hel
      · exact List.find?_cons_of_pos _ (by simp)
      · have hane : a.conn ≠ e.conn := by
          intro hcontra
          exact hnodup.1 ⟨e, hel, hcontra.symm⟩
        rw [List.find?_cons_of_neg _ (by simp [hane])]
        exact ih hnodup.2 hel

/-- `sendsTo` distributes over concatenation. -/
theorem sendsTo_append (t : Nat) (l1 l2 : List Action) :
    sendsTo t (l1 ++ l2) = sendsTo t l1 ++ sendsTo t l2 := by
  simp [sendsTo, List.filter_append]

/-- The sends to `t` among sends of one fixed message to a client list
are the sends to the clients of the list whose id is `t`. -/
theorem sendsTo_map_send (t : Nat) (m : Event) (l : List ClientEntry) :
    sendsTo t (l.map fun c => Action.send c.conn m)
      = (l.filter fun c => c.conn == t).map fun c => Action.send c.conn m := by
  simp only [sendsTo, List.filter_map]
  rfl

/-- Two successive mutations of the same record compose. -/
theorem applyAt_applyAt (st : List ClientEntry) (ws : Nat) (f g : ClientData → ClientData) :
    applyAt (applyAt st ws f) ws g = applyAt st ws (fun d => g (f d)) := by
  simp only [applyAt, List.map_map]
  apply List.map_congr_left
  intro c _
  by_cases h : c.conn = ws <;> simp [h]

/-- The metadata refresh never changes the stored role. -/
theorem updateMeta_type (m : Event) (now : Nat) (d : ClientData) :
    (updateMeta m now d).type = d.type := by
  by_cases h : truthy m.device_id <;> simp [updateMeta, h]

/-- The metadata refresh always stamps `lastPing` with the current
time. -/
theorem updateMeta_lastPing (m : Event) (now : Nat) (d : ClientData) :
    (updateMeta m now d).lastPing = now := by
  by_cases h : truthy m.device_id <;> simp [updateMeta, h]

/-- The metadata refresh overwrites `device_id` exactly when the
carried field is truthy. -/
theorem updateMeta_device_id (m : Event) (now : Nat) (d : ClientData) :
    (updateMeta m now d).device_id
      = if truthy m.device_id then m.device_id else d.device_id := by
  by_cases h : truthy m.device_id <;> simp [updateMeta, h]

/-- Assigning a role keeps the other metadata fields. -/
theorem setRole_fields (r : Role) (d : ClientData) :
    (setRole r d).type = r ∧ (setRole r d).lastPing = d.lastPing
      ∧ (setRole r d).device_id = d.device_id := by
  simp [setRole]

/-- The registry after a successfully parsed message, in closed form:
the sender's record gets `routeMeta` applied. -/
theorem handleMessage_state_eq (st : List ClientEntry) (sender : Nat) (m : Event)
    (now : Nat) :
    (handleMessage st sender (Except.ok m) now).state
      = applyAt st sender (routeMeta m now) := by
  by_cases h1 : m.type = "esp32_connected"
  · have hg : routeMeta m now = fun d => setRole Role.esp32 (updateMeta m now d) :=
      funext fun d => by simp [routeMeta, h1]
    simp [handleMessage, h1, applyAt_applyAt, hg]
  · by_cases h2 : m.type = "web_connected"
    · have hg : routeMeta m now = fun d => setRole Role.web (updateMeta m now d) :=
        funext fun d => by simp [routeMeta, h1, h2]
      simp [handleMessage, h1, h2, applyAt_applyAt, hg]
    · have hg : routeMeta m now = fun d => updateMeta m now d :=
        funext fun d => by simp [routeMeta, h1, h2]
      by_cases h3 : m.type = "rfid_scan"
      · simp [handleMessage, h1, h2, h3, hg]
      · by_cases h4 : m.type = "payment_request"
        · simp [handleMessage, h1, h2, h3, h4, hg]
        · by_cases h5 : m.type = "ping"
          · simp [handleMessage, h1, h2, h3, h4, h5, hg]
          · simp [handleMessage, h1, h2, h3, h4, h5, hg]

/-- `routeMeta` always stamps `lastPing` with the current time. -/
theorem routeMeta_lastPing (m : Event) (now : Nat) (d : ClientData) :
    (routeMeta m now d).lastPing = now := by
  by_cases h1 : m.type = "esp32_connected"
  · simp [routeMeta, h1, setRole, updateMeta_lastPing]
  · by_cases h2 : m.type = "web_connected" <;>
      simp [routeMeta, h1, h2, setRole, updateMeta_lastPing]

/-- `routeMeta` overwrites `device_id` exactly when the carried field
is truthy. -/
theorem routeMeta_device_id (m : Event) (now : Nat) (d : ClientData) :
    (routeMeta m now d).device_id
      = if truthy m.device_id then m.device_id else d.device_id := by
  by_cases h1 : m.type = "esp32_connected"
  · simp [routeMeta, h1, setRole, updateMeta_device_id]
  · by_cases h2 : m.type = "web_connected" <;>
      simp [routeMeta, h1, h2, setRole, updateMeta_device_id]

/-- The role after `routeMeta`: the announce messages assign their
role, every other message keeps the stored one. -/
theorem routeMeta_type (m : Event) (now : Nat) (d : ClientData) :
    (routeMeta m now d).type
      = (if m.type = "esp32_connected" then Role.esp32
         else if m.type = "web_connected" then Role.web
         else d.type) := by
  by_cases h1 : m.type = "esp32_connected"
  · simp [routeMeta, h1, setRole]
  · by_cases h2 : m.type = "web_connected" <;>
      simp [routeMeta, h1, h2, setRole, updateMeta_type]

/-- In a registry with pairwise-distinct connection ids, filtering for
a member's connection id yields exactly that member, when it passes
the extra test. -/
theorem filter_conn_eq (st : List ClientEntry) (e : ClientEntry) (q : ClientEntry → Bool)
    (hnodup : (st.map ClientEntry.conn).Nodup) (he : e ∈ st) :
    (st.filter fun c => c.conn == e.conn && q c) = if q e then [e] else [] := by
  induction st with
  | nil => cases he
  | cons a l ih =>
      simp only [List.map_cons, List.nodup_cons, List.mem_map] at hnodup
      rcases List.mem_cons.mp he with rfl | hel
      · have htail : (l.filter fun c => c.conn == e.conn && q c) = [] := by
          apply List.filter_eq_nil_iff.mpr
          intro c hc
          have hne : c.conn ≠ e.conn := by
            intro hcontra
            exact hnodup.1 ⟨c, hc, hcontra⟩
          simp [hne]
        by_cases hq : q e
        · simp [List.filter_cons, hq, htail]
        · simp [List.filter_cons, hq, htail]
      · have hane : a.conn ≠ e.conn := by
          intro hcontra
          exact hnodup.1 ⟨e, hel, hcontra.symm⟩
        have hcond : (a.conn == e.conn && q a) = false := by simp [hane]
        rw [List.filter_cons, if_neg (by simp [hcond])]
        exact ih hnodup.2 hel

/-- In a registry with pairwise-distinct connection ids, the sends a
member receives from a filtered broadcast are exactly one copy of the
message when it passes the filter, and none otherwise. -/
theorem sendsTo_filter_map (st : List ClientEntry) (e : ClientEntry) (m : Event)
    (q : ClientEntry → Bool) (hnodup : (st.map ClientEntry.conn).Nodup) (he : e ∈ st) :
    sendsTo e.conn ((st.filter q).map fun c => Action.send c.conn m)
      = if q e then [Action.send e.conn m] else [] := by
  rw [sendsTo_map_send, List.filter_filter]
  rw [filter_conn_eq st e q hnodup he]
  by_cases hq : q e
  · rw [if_pos hq, if_pos hq]
    simp
  · rw [if_neg hq, if_neg hq]
    simp

/-- C2: on a parse failure the handler sends exactly one event back to
the originating connection, that event has type `error`, no close or
terminate is performed, the registry is untouched, and nothing is
deferred — the connection remains open. -/
theorem C2_parse_failure_single_error (st : List ClientEntry) (sender : Nat)
    (err : String) (now : Nat) :
    (handleMessage st sender (Except.error err) now).state = st
    ∧ (handleMessage st sender (Except.error err) now).actions.length = 1
    ∧ (∀ a ∈ (handleMessage st sender (Except.error err) now).actions,
        ∃ e, a = Action.send sender e ∧ e.type = "error")
    ∧ (∀ t code reasn,
        Action.close t code reasn ∉ (handleMessage st sender (Except.error err) now).actions)
    ∧ (∀ t, Action.terminate t ∉ (handleMessage st sender (Except.error err) now).actions)
    ∧ (handleMessage st sender (Except.error err) now).deferred = [] := by
  refine ⟨rfl, rfl, ?_, ?_, ?_, rfl⟩
  · intro a ha
    simp only [handleMessage, List.mem_singleton] at ha
    exact ⟨_, ha, rfl⟩
  · intro t code reasn hmem
    simp [handleMessage] at hmem
  · intro t hmem
    simp [handleMessage] at hmem

/-- Witness for C2 at a concrete parse failure. -/
theorem C2_parse_failure_single_error_witness :
    (handleMessage [sampleWeb] 2 (Except.error "Unexpected token") 7).state = [sampleWeb]
    ∧ (handleMessage [sampleWeb] 2 (Except.error "Unexpected token") 7).actions.length = 1
    ∧ (∀ a ∈ (handleMessage [sampleWeb] 2 (Except.error "Unexpected token") 7).actions,
        ∃ e, a = Action.send 2 e ∧ e.type = "error")
    ∧ (∀ t code reasn, Action.close t code reasn
        ∉ (handleMessage [sampleWeb] 2 (Except.error "Unexpected token") 7).actions)
    ∧ (∀ t, Action.terminate t
        ∉ (handleMessage [sampleWeb] 2 (Except.error "Unexpected token") 7).actions)
    ∧ (handleMessage [sampleWeb] 2 (Except.error "Unexpected token") 7).deferred = [] :=
  C2_parse_failure_single_error [sampleWeb] 2 "Unexpected token" 7

/-- C10: the deferred payment callback runs with the constant success
flag `true`, so every action it emits is a send of a
`payment_success` event; in particular no `payment_failed` event is
ever emitted to any connection. -/
theorem C10_denial_branch_unreachable (m : Event) (st : List ClientEntry) (now : Nat) :
    paymentCallback m st now = paymentOutcomeActions true m st now
    ∧ ((paymentCallback m st now).all fun a =>
        match a with
        | Action.send _ e => e.type == "payment_success"
        | _ => false) = true := by
  refine ⟨rfl, ?_⟩
  rw [List.all_eq_true]
  intro a ha
  simp only [paymentCallback, paymentOutcomeActions, if_true, List.mem_append,
    broadcastToESP32_eq, broadcastToWeb_eq, List.mem_map, List.mem_filter] at ha
  rcases ha with ⟨c, _, rfl⟩ | ⟨c, _, rfl⟩ <;> rfl

/-- C1 counterexample: the denial branch of the payment completion
callback sends a `payment_failed` event to the ESP32 connection only;
the open control-client connection 2 receives nothing, so on a denial
outcome the result event is not broadcast to both connection sets. -/
theorem C1_counterexample_denial_skips_web :
    paymentOutcomeActions false samplePayment [sampleEsp, sampleWeb] 5
      = [Action.send 1 { paymentFailedEvent samplePayment with timestamp := some 5 }]
    ∧ sendsTo 2 (paymentOutcomeActions false samplePayment [sampleEsp, sampleWeb] 5) = []
    ∧ sampleWeb.data.type = Role.web ∧ sampleWeb.readyState = 1 := by decide

/-- C4 counterexample: connection 0 declares `esp32_connected` and gets
the terminal role `scan_device`, and a later `web_connected` message
from the same connection overwrites it with the other terminal role
`control_client` — the role is not stable under later role-declaring
messages. -/
theorem C4_counterexample_role_overwritten :
    (∃ c ∈ (handleMessage [sampleUnknown] 0
        (Except.ok { type := "esp32_connected" }) 1).state,
      c.conn = 0 ∧ c.data.type = Role.esp32)
    ∧ (∃ c ∈ (handleMessage
          (handleMessage [sampleUnknown] 0 (Except.ok { type := "esp32_connected" }) 1).state
          0 (Except.ok { type := "web_connected" }) 2).state,
      c.conn = 0 ∧ c.data.type = Role.web) := by decide

/-- C6 counterexample: a parsed message carrying the `device_id` field
with value `""` refreshes `lastPing` but does not overwrite the
record's `device_id` (JavaScript truthiness): the record keeps
`"OLD"`, not the carried value `""`. -/
theorem C6_counterexample_empty_device_id_ignored :
    (∀ c ∈ (handleMessage [sampleOldDevice] 0
        (Except.ok { type := "ping", device_id := some "" }) 5).state,
      c.data.device_id = some "OLD" ∧ c.data.device_id ≠ some "" ∧ c.data.lastPing = 5)
    ∧ (handleMessage [sampleOldDevice] 0
        (Except.ok { type := "ping", device_id := some "" }) 5).state ≠ [] := by decide

/-- C9 counterexample: an unhandled promise rejection is an uncaught
fault, yet its registered handler performs no shutdown action — no
close frame and no forced-exit timer — while a termination signal
closes every connection; the rejection handler does not trigger the
shutdown path. -/
theorem C9_counterexample_rejection_no_shutdown :
    processHandler ProcEvent.unhandledRejection [sampleWeb] = []
    ∧ processHandler ProcEvent.sigterm [sampleWeb] ≠ []
    ∧ SysAction.closeFrame 2 1000 "Server shutting down"
        ∈ processHandler ProcEvent.sigterm [sampleWeb]
    ∧ SysAction.closeFrame 2 1000 "Server shutting down"
        ∉ processHandler ProcEvent.unhandledRejection [sampleWeb] := by decide

/-- C3: broadcast sends are independent.  Under any per-target delivery
failure pattern, every eligible target whose own delivery succeeds
receives its send regardless of failures at other targets, for each of
the three broadcast helpers; and every action of the sender-excluding
broadcast is a send of the broadcast message itself to a non-sender
target, so a delivery failure never results in an error event back to
the originating connection. -/
theorem C3_broadcast_sends_independent (st : List ClientEntry) (m : Event)
    (sender : Option Nat) (deliverOk : Nat → Bool) :
    (∀ c ∈ st, some c.conn ≠ sender → c.readyState = 1 → deliverOk c.conn = true →
      Action.send c.conn m ∈ deliveries deliverOk (broadcastToAll st m sender).1)
    ∧ (∀ c ∈ st, c.data.type = Role.web → c.readyState = 1 → deliverOk c.conn = true →
      Action.send c.conn m ∈ deliveries deliverOk (broadcastToWeb st m).1)
    ∧ (∀ c ∈ st, c.data.type = Role.esp32 → c.readyState = 1 → deliverOk c.conn = true →
      Action.send c.conn m ∈ deliveries deliverOk (broadcastToESP32 st m).1)
    ∧ (∀ a ∈ (broadcastToAll st m sender).1, ∃ t, a = Action.send t m ∧ some t ≠ sender) := by
  refine ⟨?_, ?_, ?_, ?_⟩
  · intro c hc hns hrs hok
    simp only [deliveries, List.mem_filter, broadcastToAll_eq, List.mem_map, List.mem_filter]
    exact ⟨⟨c, ⟨hc, by simp [hns, hrs]⟩, rfl⟩, by simpa using hok⟩
  · intro c hc hw hrs hok
    simp only [deliveries, List.mem_filter, broadcastToWeb_eq, List.mem_map, List.mem_filter]
    exact ⟨⟨c, ⟨hc, by simp [hw, hrs]⟩, rfl⟩, by simpa using hok⟩
  · intro c hc he hrs hok
    simp only [deliveries, List.mem_filter, broadcastToESP32_eq, List.mem_map, List.mem_filter]
    exact ⟨⟨c, ⟨hc, by simp [he, hrs]⟩, rfl⟩, by simpa using hok⟩
  · intro a ha
    simp only [broadcastToAll_eq, List.mem_map, List.mem_filter] at ha
    obtain ⟨c, ⟨_, hcond⟩, rfl⟩ := ha
    refine ⟨c.conn, rfl, ?_⟩
    exact (decide_eq_true_iff.mp hcond).1

/-- Witness for C3: with delivery to connection 1 failing, the open
connection 2 still receives the fallback broadcast. -/
theorem C3_broadcast_sends_independent_witness :
    Action.send 2 { type := "note" }
      ∈ deliveries (fun t => !(t == 1))
          (broadcastToAll [sampleEsp, sampleWeb] { type := "note" } (some 1)).1 :=
  (C3_broadcast_sends_independent [sampleEsp, sampleWeb] { type := "note" } (some 1)
      (fun t => !(t == 1))).1 sampleWeb (by decide) (by decide) (by decide) (by decide)

/-- C8: a message of an unhandled type is rebroadcast verbatim — every
emitted action is a send of the parsed event itself to a non-sender
target, every open connection other than the sender receives it, the
number of emitted sends equals the number of open connections other
than the sender, and the count returned by `broadcastToAll` equals
that same number. -/
theorem C8_fallback_broadcast (st : List ClientEntry) (sender : Nat) (m : Event) (now : Nat)
    (h1 : m.type ≠ "esp32_connected") (h2 : m.type ≠ "web_connected")
    (h3 : m.type ≠ "rfid_scan") (h4 : m.type ≠ "payment_request") (h5 : m.type ≠ "ping") :
    (∀ a ∈ (handleMessage st sender (Except.ok m) now).actions,
      ∃ t, a = Action.send t m ∧ t ≠ sender)
    ∧ (∀ c ∈ st, c.conn ≠ sender → c.readyState = 1 →
      Action.send c.conn m ∈ (handleMessage st sender (Except.ok m) now).actions)
    ∧ (handleMessage st sender (Except.ok m) now).actions.length
        = (st.filter fun c => decide (c.conn ≠ sender ∧ c.readyState = 1)).length
    ∧ (broadcastToAll st m (some sender)).2
        = (st.filter fun c => decide (c.conn ≠ sender ∧ c.readyState = 1)).length := by
  have hred : (handleMessage st sender (Except.ok m) now).actions
      = (broadcastToAll (applyAt st sender (updateMeta m now)) m (some sender)).1 := by
    simp [handleMessage, h1, h2, h3, h4, h5]
  have hqeq : ∀ c : ClientEntry,
      (decide (some c.conn ≠ some sender ∧ c.readyState = 1))
        = (decide (c.conn ≠ sender ∧ c.readyState = 1)) := by
    intro c
    simp [decide_eq_decide]
  refine ⟨?_, ?_, ?_, ?_⟩
  · intro a ha
    rw [hred] at ha
    simp only [broadcastToAll_eq, List.mem_map, List.mem_filter] at ha
    obtain ⟨c, ⟨_, hcond⟩, rfl⟩ := ha
    refine ⟨c.conn, rfl, ?_⟩
    have := (decide_eq_true_iff.mp hcond).1
    simpa using this
  · intro c hc hns hrs
    rw [hred]
    simp only [broadcastToAll_eq, List.mem_map, List.mem_filter]
    exact ⟨c, ⟨mem_applyAt_of_ne st sender (updateMeta m now) c hc hns,
      by simp [hns, hrs]⟩, rfl⟩
  · rw [hred]
    simp only [broadcastToAll_eq]
    rw [List.length_map]
    have hcongr : ((applyAt st sender (updateMeta m now)).filter
          fun c => decide (some c.conn ≠ some sender ∧ c.readyState = 1))
        = ((applyAt st sender (updateMeta m now)).filter
          fun c => decide (c.conn ≠ sender ∧ c.readyState = 1)) := by
      apply List.filter_congr
      intro c _
      exact hqeq c
    rw [hcongr]
    exact length_filter_applyAt st sender (updateMeta m now) _ (by intro conn rs d d'; simp)
  · simp only [broadcastToAll_eq]
    congr 1
    apply List.filter_congr
    intro c _
    exact hqeq c

/-- Witness for C8 at a concrete unhandled message type. -/
theorem C8_fallback_broadcast_witness :
    Action.send 2 { type := "note" }
      ∈ (handleMessage [sampleEsp, sampleWeb] 1 (Except.ok { type := "note" }) 9).actions
    ∧ (broadcastToAll [sampleEsp, sampleWeb] { type := "note" } (some 1)).2
        = ([sampleEsp, sampleWeb].filter
            fun c => decide (c.conn ≠ 1 ∧ c.readyState = 1)).length := by
  have h := C8_fallback_broadcast [sampleEsp, sampleWeb] 1 { type := "note" } 9
    (by decide) (by decide) (by decide) (by decide) (by decide)
  exact ⟨h.2.1 sampleWeb (by decide) (by decide) (by decide), h.2.2.2⟩

/-- C4 (amended): a record is registered with role `unknown`;
`esp32_connected` sets the sender's role to `scan_device` and
`web_connected` to `control_client`, any other message leaves every
role unchanged, no record ever moves back to role `unknown`, and a
parse failure changes nothing — but, as the counterexample shows, a
later role-declaring message of the other kind does overwrite a
terminal role rather than leaving it fixed. -/
theorem C4_amended_role_transitions (st : List ClientEntry) (conn sender : Nat)
    (ip : String) (m : Event) (now : Nat) :
    (∃ d : ClientData, (handleConnection st conn ip now).1
        = st ++ [{ conn := conn, readyState := 1, data := d }] ∧ d.type = Role.unknown)
    ∧ (∀ c ∈ st, ∃ c' ∈ (handleMessage st sender (Except.ok m) now).state,
        c'.conn = c.conn ∧ c'.readyState = c.readyState ∧
        c'.data.type =
          (if c.conn = sender ∧ m.type = "esp32_connected" then Role.esp32
           else if c.conn = sender ∧ m.type = "web_connected" then Role.web
           else c.data.type))
    ∧ (∀ c' ∈ (handleMessage st sender (Except.ok m) now).state,
        c'.data.type = Role.unknown →
        ∃ c ∈ st, c.conn = c'.conn ∧ c.data.type = Role.unknown)
    ∧ (handleMessage st sender (Except.error "malformed") now).state = st := by
  rw [handleMessage_state_eq]
  refine ⟨⟨_, rfl, rfl⟩, ?_, ?_, rfl⟩
  · intro c hc
    refine ⟨_, List.mem_map_of_mem _ hc, ?_⟩
    by_cases h : c.conn = sender
    · rw [if_pos h]
      refine ⟨rfl, rfl, ?_⟩
      show (routeMeta m now c.data).type = _
      rw [routeMeta_type]
      by_cases h1 : m.type = "esp32_connected"
      · simp [h, h1]
      · by_cases h2 : m.type = "web_connected" <;> simp [h, h1, h2, updateMeta_type]
    · simp [h]
  · intro c' hc' hunk
    obtain ⟨c, hc, rfl⟩ := (mem_applyAt st sender (routeMeta m now) c').mp hc'
    by_cases h : c.conn = sender
    · refine ⟨c, hc, by simp [h], ?_⟩
      rw [if_pos h] at hunk
      have hunk' : (routeMeta m now c.data).type = Role.unknown := hunk
      rw [routeMeta_type] at hunk'
      clear hunk
      rename' hunk' => hunk
      by_cases h1 : m.type = "esp32_connected"
      · simp [h1] at hunk
      · by_cases h2 : m.type = "web_connected"
        · simp [h1, h2] at hunk
        · simpa [h1, h2] using hunk
    · exact ⟨c, hc, by simp [h], by simpa [h] using hunk⟩

/-- Witness for C4: an `esp32_connected` message from the fresh
connection 0 moves its role from `unknown` to `scan_device`. -/
theorem C4_amended_role_transitions_witness :
    ∃ c' ∈ (handleMessage [sampleUnknown] 0
        (Except.ok { type := "esp32_connected" }) 3).state,
      c'.conn = 0 ∧ c'.readyState = 1 ∧ c'.data.type = Role.esp32 := by
  obtain ⟨-, h2, -, -⟩ :=
    C4_amended_role_transitions [sampleUnknown] 5 0 "10.0.0.9"
      { type := "esp32_connected" } 3
  obtain ⟨c', hc', hconn, hrs, hty⟩ := h2 sampleUnknown (by decide)
  refine ⟨c', hc', ?_, ?_, ?_⟩
  · simpa [sampleUnknown] using hconn
  · simpa [sampleUnknown] using hrs
  · simpa [sampleUnknown] using hty

/-- C6 (amended): every successfully parsed message refreshes the
sender's `lastPing` unconditionally, overwrites the sender's
`device_id` exactly when the carried `device_id` field is truthy
(non-null and non-empty) and keeps it otherwise, and leaves every
other record untouched. -/
theorem C6_amended_metadata_refresh (st : List ClientEntry) (sender : Nat) (m : Event)
    (now : Nat) :
    ∀ c ∈ st, ∃ c' ∈ (handleMessage st sender (Except.ok m) now).state,
      c'.conn = c.conn ∧ c'.readyState = c.readyState
      ∧ (c.conn = sender →
          c'.data.lastPing = now ∧
          c'.data.device_id = (if truthy m.device_id then m.device_id else c.data.device_id))
      ∧ (c.conn ≠ sender → c' = c) := by
  rw [handleMessage_state_eq]
  intro c hc
  refine ⟨_, List.mem_map_of_mem _ hc, ?_⟩
  by_cases h : c.conn = sender
  · rw [if_pos h]
    exact ⟨rfl, rfl, fun _ => ⟨routeMeta_lastPing m now c.data,
      routeMeta_device_id m now c.data⟩, fun hne => absurd h hne⟩
  · simp [h]

/-- Witness for C6: a message carrying a truthy `device_id` stamps the
current time and overwrites the stored identifier. -/
theorem C6_amended_metadata_refresh_witness :
    ∃ c' ∈ (handleMessage [sampleOldDevice] 0
        (Except.ok { type := "rfid_scan", device_id := some "NEW" }) 11).state,
      c'.conn = 0 ∧ c'.data.lastPing = 11 ∧ c'.data.device_id = some "NEW" := by
  obtain ⟨c', hc', hconn, -, hsender, -⟩ :=
    C6_amended_metadata_refresh [sampleOldDevice] 0
      { type := "rfid_scan", device_id := some "NEW" } 11 sampleOldDevice (by decide)
  obtain ⟨hlp, hdev⟩ := hsender (by decide)
  exact ⟨c', hc', by simpa [sampleOldDevice] using hconn, hlp,
    by simpa [truthy] using hdev⟩

/-- C7: an `esp32_connected` message sets the sender's role to
`scan_device`, replies to the originating connection with a
confirmation event, and broadcasts the connected-status event carrying
the device id to exactly the open control-client records: each open
web record receives it exactly once, records of other roles or closed
records receive nothing, and the sender — whose role has just become
`scan_device` — receives only the confirmation. -/
theorem C7_device_announce (st : List ClientEntry) (sender : Nat) (m : Event) (now : Nat)
    (hty : m.type = "esp32_connected")
    (hnodup : (st.map ClientEntry.conn).Nodup) :
    (∀ c' ∈ (handleMessage st sender (Except.ok m) now).state,
        c'.conn = sender → c'.data.type = Role.esp32)
    ∧ (handleMessage st sender (Except.ok m) now).actions.head?
        = some (Action.send sender
            { type := "connection_confirmed",
              message := some "ESP32 connected successfully", server_time := some now })
    ∧ (∀ a ∈ (handleMessage st sender (Except.ok m) now).actions.tail,
        ∃ t, a = Action.send t
          { type := "esp32_status", status := some "connected", device_id := m.device_id })
    ∧ (∀ c ∈ st, c.conn ≠ sender →
        (sendsTo c.conn ((handleMessage st sender (Except.ok m) now).actions.tail)).length
          = if c.data.type = Role.web ∧ c.readyState = 1 then 1 else 0)
    ∧ sendsTo sender ((handleMessage st sender (Except.ok m) now).actions.tail) = [] := by
  have hg : routeMeta m now = fun d => setRole Role.esp32 (updateMeta m now d) :=
    funext fun d => by simp [routeMeta, hty]
  have hred : (handleMessage st sender (Except.ok m) now).actions
      = Action.send sender
          { type := "connection_confirmed",
            message := some "ESP32 connected successfully", server_time := some now }
        :: (broadcastToWeb (applyAt st sender (routeMeta m now))
            { type := "esp32_status", status := some "connected",
              device_id := m.device_id }).1 := by
    simp [handleMessage, hty, applyAt_applyAt, hg]
  have hnodup2 : ((applyAt st sender (routeMeta m now)).map ClientEntry.conn).Nodup := by
    rw [applyAt_map_conn]; exact hnodup
  refine ⟨?_, ?_, ?_, ?_, ?_⟩
  · intro c' hc' hcs
    rw [handleMessage_state_eq] at hc'
    obtain ⟨c, hc, rfl⟩ := (mem_applyAt st sender (routeMeta m now) c').mp hc'
    by_cases h : c.conn = sender
    · rw [if_pos h]
      show (routeMeta m now c.data).type = Role.esp32
      rw [routeMeta_type]
      simp [hty]
    · rw [if_neg h] at hcs
      exact absurd hcs h
  · rw [hred]
    rfl
  · intro a ha
    rw [hred] at ha
    simp only [List.tail_cons] at ha
    rw [broadcastToWeb_eq] at ha
    simp only [List.mem_map, List.mem_filter] at ha
    obtain ⟨c, -, rfl⟩ := ha
    exact ⟨c.conn, rfl⟩
  · intro c hc hcs
    rw [hred]
    simp only [List.tail_cons]
    rw [broadcastToWeb_eq]
    have hc2 : c ∈ applyAt st sender (routeMeta m now) :=
      mem_applyAt_of_ne st sender (routeMeta m now) c hc hcs
    rw [sendsTo_filter_map _ c _ _ hnodup2 hc2]
    by_cases hw : c.data.type = Role.web ∧ c.readyState = 1
    · rw [if_pos (by simpa using hw), if_pos hw]
      rfl
    · rw [if_neg (by simpa using hw), if_neg hw]
      rfl
  · rw [hred]
    simp only [List.tail_cons]
    rw [broadcastToWeb_eq, sendsTo_map_send, List.filter_filter]
    have hnil : ((applyAt st sender (routeMeta m now)).filter
        fun c => (c.conn == sender
          && decide (c.data.type = Role.web ∧ c.readyState = 1))) = [] := by
      apply List.filter_eq_nil_iff.mpr
      intro x hx2
      obtain ⟨c0, hc0, rfl⟩ := (mem_applyAt st sender (routeMeta m now) x).mp hx2
      by_cases h0 : c0.conn = sender
      · rw [if_pos h0]
        intro hcontra
        have hpw := (Bool.and_eq_true _ _ |>.mp hcontra).2
        have htype : (routeMeta m now c0.data).type = Role.web :=
          (decide_eq_true_iff.mp hpw).1
        rw [routeMeta_type] at htype
        simp [hty] at htype
      · rw [if_neg h0]
        intro hcontra
        have := (Bool.and_eq_true _ _ |>.mp hcontra).1
        exact h0 (by simpa using this)
    rw [hnil]
    rfl

/-- Witness for C7: with an unknown-role record and an open web record
present, the web record receives the connected-status event exactly
once. -/
theorem C7_device_announce_witness :
    (sendsTo 2 (HandleResult.actions (handleMessage [sampleUnknown, sampleWeb] 0
        (Except.ok { type := "esp32_connected", device_id := some "D9" }) 4)).tail).length
      = 1 := by
  have h := C7_device_announce [sampleUnknown, sampleWeb] 0
    { type := "esp32_connected", device_id := some "D9" } 4 rfl (by decide)
  have h4 := h.2.2.2.1 sampleWeb (by decide) (by decide)
  simpa [sampleWeb] using h4

/-- C5: a record whose `lastPing` is more than the 120000-unit
staleness threshold in the past is terminated by the next eviction
sweep; the close handling that the termination fires removes its
registry record, and when its role was `scan_device`, every action
emitted is a send of the one disconnect-status event, delivered
exactly once to each open control-client record and to no record of
another role. -/
theorem C5_eviction_terminates_stale (st : List ClientEntry) (now : Nat) (e : ClientEntry)
    (hmem : e ∈ st) (hstale : STALE_MS < now - e.data.lastPing)
    (hnodup : (st.map ClientEntry.conn).Nodup) :
    Action.terminate e.conn ∈ evictionSweep st now
    ∧ (∀ c' ∈ (handleClose st e.conn).1, c'.conn ≠ e.conn)
    ∧ (e.data.type = Role.esp32 →
        (∀ a ∈ (handleClose st e.conn).2,
          ∃ t, a = Action.send t
            { type := "esp32_status", status := some "disconnected",
              device_id := e.data.device_id })
        ∧ (∀ c ∈ st, (sendsTo c.conn ((handleClose st e.conn).2)).length
            = if c.data.type = Role.web ∧ c.readyState = 1 then 1 else 0)) := by
  have hfind : (st.find? fun c => c.conn == e.conn) = some e := find?_conn st e hnodup hmem
  refine ⟨?_, ?_, ?_⟩
  · simp only [evictionSweep, List.mem_map, List.mem_filter]
    exact ⟨e, ⟨hmem, by simpa using hstale⟩, rfl⟩
  · intro c' hc'
    simp only [handleClose, List.mem_filter] at hc'
    simpa using hc'.2
  · intro hesp
    have hacts : (handleClose st e.conn).2
        = (broadcastToWeb st
            { type := "esp32_status", status := some "disconnected",
              device_id := e.data.device_id }).1 := by
      simp [handleClose, hfind, hesp]
    refine ⟨?_, ?_⟩
    · intro a ha
      rw [hacts, broadcastToWeb_eq] at ha
      simp only [List.mem_map, List.mem_filter] at ha
      obtain ⟨c, -, rfl⟩ := ha
      exact ⟨c.conn, rfl⟩
    · intro c hc
      rw [hacts, broadcastToWeb_eq]
      rw [sendsTo_filter_map st c _ _ hnodup hc]
      by_cases hw : c.data.type = Role.web ∧ c.readyState = 1
      · rw [if_pos (by simpa using hw), if_pos hw]
        rfl
      · rw [if_neg (by simpa using hw), if_neg hw]
        rfl

/-- Witness for C5: at time 200000 the stale scan-device record with
`lastPing = 0` is swept, and the fired close handling delivers the
disconnect-status event exactly once to the open web record. -/
theorem C5_eviction_terminates_stale_witness :
    Action.terminate 3 ∈ evictionSweep [staleEsp, sampleWeb] 200000
    ∧ (sendsTo 2 ((handleClose [staleEsp, sampleWeb] 3).2)).length = 1 := by
  have h := C5_eviction_terminates_stale [staleEsp, sampleWeb] 200000 staleEsp
    (by decide) (by decide) (by decide)
  refine ⟨by simpa [staleEsp] using h.1, ?_⟩
  have h3 := (h.2.2 (by decide)).2 sampleWeb (by decide)
  simpa [sampleWeb, staleEsp] using h3

/-- C1 (amended): a `payment_request` message produces no synchronous
action at all — in particular no response to the sender — and defers
the completion; the deferred callback, whose success flag is the
constant `true`, broadcasts the one `payment_success` result event to
every open scan-device record and every open control-client record of
the registry at callback time, each exactly once.  The denial branch,
which the counterexample shows would notify only scan devices, is
unreachable. -/
theorem C1_amended_payment_async (st : List ClientEntry) (sender : Nat) (m : Event)
    (now : Nat) (hty : m.type = "payment_request") :
    (handleMessage st sender (Except.ok m) now).actions = []
    ∧ (handleMessage st sender (Except.ok m) now).deferred = [m]
    ∧ (∀ (stc : List ClientEntry) (cbNow : Nat),
        (stc.map ClientEntry.conn).Nodup →
        ∀ c ∈ stc, c.readyState = 1 →
          (c.data.type = Role.esp32 ∨ c.data.type = Role.web) →
          sendsTo c.conn (paymentCallback m stc cbNow)
            = [Action.send c.conn (paymentSuccessEvent m cbNow)]) := by
  have h1 : m.type ≠ "esp32_connected" := by rw [hty]; decide
  have h2 : m.type ≠ "web_connected" := by rw [hty]; decide
  have h3 : m.type ≠ "rfid_scan" := by rw [hty]; decide
  refine ⟨?_, ?_, ?_⟩
  · simp [handleMessage, h1, h2, h3, hty]
  · simp [handleMessage, h1, h2, h3, hty]
  · intro stc cbNow hnodupc c hc hrs hrole
    have hcb : paymentCallback m stc cbNow
        = (broadcastToESP32 stc (paymentSuccessEvent m cbNow)).1
          ++ (broadcastToWeb stc (paymentSuccessEvent m cbNow)).1 := by
      simp [paymentCallback, paymentOutcomeActions]
    rw [hcb, sendsTo_append, broadcastToESP32_eq, broadcastToWeb_eq,
      sendsTo_filter_map stc c _ _ hnodupc hc, sendsTo_filter_map stc c _ _ hnodupc hc]
    rcases hrole with he | hw
    · have hnw : ¬(c.data.type = Role.web ∧ c.readyState = 1) := by
        rintro ⟨hcontra, -⟩
        rw [he] at hcontra
        cases hcontra
      rw [if_pos (by simpa using And.intro he hrs), if_neg (by simpa using hnw)]
      rfl
    · have hne : ¬(c.data.type = Role.esp32 ∧ c.readyState = 1) := by
        rintro ⟨hcontra, -⟩
        rw [hw] at hcontra
        cases hcontra
      rw [if_neg (by simpa using hne), if_pos (by simpa using And.intro hw hrs)]
      rfl

/-- Witness for C1: a payment request triggers no synchronous action,
and the deferred success callback delivers exactly one result event to
the open web record. -/
theorem C1_amended_payment_async_witness :
    (handleMessage [sampleEsp, sampleWeb] 1 (Except.ok samplePayment) 5).actions = []
    ∧ sendsTo 2 (paymentCallback samplePayment [sampleEsp, sampleWeb] 6)
        = [Action.send 2 (paymentSuccessEvent samplePayment 6)] := by
  have h := C1_amended_payment_async [sampleEsp, sampleWeb] 1 samplePayment 5 rfl
  refine ⟨h.1, ?_⟩
  have h3 := h.2.2 [sampleEsp, sampleWeb] 6 (by decide) sampleWeb (by decide)
    (by decide) (by decide)
  simpa [sampleWeb] using h3

/-- C9 (amended): on SIGTERM, SIGINT or an uncaught exception the
server sends a code-1000 close frame with the documented reason to
every connection, registers exit 0 for drain completion, and arms the
10000-unit forced-exit timer; the drain outcome exits 0 exactly when
draining finishes before the timeout and 1 otherwise.  An unhandled
promise rejection, however, triggers no shutdown action at all. -/
theorem C9_amended_shutdown_path (st : List ClientEntry) (e : ProcEvent)
    (h : e = ProcEvent.sigterm ∨ e = ProcEvent.sigint ∨ e = ProcEvent.uncaughtException) :
    (∀ c ∈ st, SysAction.closeFrame c.conn 1000 "Server shutting down"
      ∈ processHandler e st)
    ∧ SysAction.forcedExitTimer 10000 1 ∈ processHandler e st
    ∧ SysAction.drainExit 0 ∈ processHandler e st
    ∧ shutdownExit none = 1
    ∧ (∀ t, 10000 ≤ t → shutdownExit (some t) = 1)
    ∧ (∀ t, t < 10000 → shutdownExit (some t) = 0)
    ∧ processHandler ProcEvent.unhandledRejection st = [] := by
  have hps : processHandler e st = shutdown st := by
    rcases h with rfl | rfl | rfl <;> rfl
  rw [hps]
  refine ⟨?_, ?_, ?_, rfl, ?_, ?_, rfl⟩
  · intro c hc
    simp only [shutdown, List.mem_append, List.mem_map]
    exact Or.inl ⟨c, hc, rfl⟩
  · simp [shutdown]
  · simp [shutdown]
  · intro t ht
    simp [shutdownExit, Nat.not_lt.mpr ht]
  · intro t ht
    simp [shutdownExit, ht]

/-- Witness for C9 at an uncaught exception with one open web
connection, and forced exit when draining takes the full timeout. -/
theorem C9_amended_shutdown_path_witness :
    SysAction.closeFrame 2 1000 "Server shutting down"
      ∈ processHandler ProcEvent.uncaughtException [sampleWeb]
    ∧ shutdownExit (some 10000) = 1 := by
  have h := C9_amended_shutdown_path [sampleWeb] ProcEvent.uncaughtException
    (Or.inr (Or.inr rfl))
  exact ⟨by simpa [sampleWeb] using h.1 sampleWeb (by decide),
    h.2.2.2.2.1 10000 (by decide)⟩

end PayTap
